import Mathlib

/-!
Shallow embedding of the waveshare-modbus driver layer (src/lib.rs,
src/common.rs, src/digital.rs, src/analog_in.rs, src/analog_out.rs).

Modelling conventions:
* Rust `u8`/`u16` values are `Nat` with explicit bounds where overflow or
  range matters; all register codes in the source are small constants, and
  every address computation (`base + channel`) stays far below 2^16, so no
  wrap-around is possible and `Nat` addition is exact.
* The external tokio-modbus collaborator is out of scope in the source
  (spec section 1); each facade operation is embedded as a pure function of
  the collaborator's response, returning the list of link requests it emits
  (`Event`s, in order) together with the operation's result.  `Result<Result
  <T, ExceptionCode>, Error>` becomes `Except TransportError (Except
  ExceptionCode T)`.
* A Rust `result[0]` index on a possibly-empty `Vec` panics; the embedding
  of such an operation returns `Option (Except e t)` where `none` models
  the panic.
* The concurrency model for the shared link mirrors `ThreadSafeContext`
  (src/lib.rs): every method locks the mutex for just its own body, so each
  method call is one atomic step, and distinct method calls by different
  callers may interleave in any order.  A schedule picks which caller runs
  its next atomic step.
-/

namespace Waveshare

/-! ## src/common.rs -/

/-- `CommonHoldingRegisters` from src/common.rs. -/
inductive CommonHoldingRegisters
  | UartParameters
  | DeviceAddress
  | SoftwareVersion
  deriving DecidableEq, Repr

/-- Discriminant values of `CommonHoldingRegisters` (`repr(u16)`). -/
def CommonHoldingRegisters.toU16 : CommonHoldingRegisters → Nat
  | .UartParameters => 0x2000
  | .DeviceAddress => 0x4000
  | .SoftwareVersion => 0x8000

/-- `Baudrates` from src/common.rs. -/
inductive Baudrates
  | B4800
  | B9600
  | B19200
  | B38400
  | B57600
  | B115200
  | B128000
  | B256000
  deriving DecidableEq, Repr

/-- Discriminant values of `Baudrates` (`repr(u16)`). -/
def Baudrates.toU16 : Baudrates → Nat
  | .B4800 => 0x00
  | .B9600 => 0x01
  | .B19200 => 0x02
  | .B38400 => 0x03
  | .B57600 => 0x04
  | .B115200 => 0x05
  | .B128000 => 0x06
  | .B256000 => 0x07

/-- `Parity` from src/common.rs. -/
inductive Parity
  | None
  | Even
  | Odd
  deriving DecidableEq, Repr

/-- Discriminant values of `Parity` (`repr(u16)`). -/
def Parity.toU16 : Parity → Nat
  | .None => 0x00
  | .Even => 0x01
  | .Odd => 0x02

/-- `Channel` from src/common.rs. -/
inductive Channel
  | Channel0
  | Channel1
  | Channel2
  | Channel3
  | Channel4
  | Channel5
  | Channel6
  | Channel7
  deriving DecidableEq, Repr

/-- Discriminant values of `Channel` (`repr(u16)`); also the value produced
by `channel as u16` in the facade address arithmetic. -/
def Channel.toU16 : Channel → Nat
  | .Channel0 => 0x0000
  | .Channel1 => 0x0001
  | .Channel2 => 0x0002
  | .Channel3 => 0x0003
  | .Channel4 => 0x0004
  | .Channel5 => 0x0005
  | .Channel6 => 0x0006
  | .Channel7 => 0x0007

/-- `impl TryFrom<u8> for Channel` from src/common.rs (lines 43-58).  The
argument is the `u8` value, modelled as a `Nat` below 256. -/
def Channel.tryFrom (value : Nat) : Except String Channel :=
  match value with
  | 0 => .ok .Channel0
  | 1 => .ok .Channel1
  | 2 => .ok .Channel2
  | 3 => .ok .Channel3
  | 4 => .ok .Channel4
  | 5 => .ok .Channel5
  | 6 => .ok .Channel6
  | 7 => .ok .Channel7
  | _ => .error "Invalid Channel"

/-! ## Link requests and collaborator responses

Each `ThreadSafeContext` method used by a facade operation emits exactly one
request on the link; `Event` records that request.  `select` is the
slave-select primitive (`set_slave`), the others are the Modbus
transactions. -/

/-- One raw request sent to the external Modbus collaborator. -/
inductive Event
  | select (slave : Nat)
  | readCoils (addr cnt : Nat)
  | readDiscreteInputs (addr cnt : Nat)
  | readHoldingRegisters (addr cnt : Nat)
  | readInputRegisters (addr cnt : Nat)
  | writeSingleCoil (addr : Nat) (value : Bool)
  | writeSingleRegister (addr value : Nat)
  | writeMultipleCoils (addr : Nat) (values : List Bool)
  | writeMultipleRegisters (addr : Nat) (values : List Nat)
  deriving DecidableEq, Repr

/-- True for the Modbus transactions, false for the slave-select step. -/
def Event.isTransaction : Event → Bool
  | .select _ => false
  | _ => true

/-- Opaque transport-level failure (`tokio_modbus::Error`); the code only
passes it through, so its content is irrelevant and modelled by a tag. -/
structure TransportError where
  tag : Nat
  deriving DecidableEq, Repr

/-- Opaque protocol exception code (`tokio_modbus::ExceptionCode`). -/
structure ProtocolException where
  tag : Nat
  deriving DecidableEq, Repr

/-- The collaborator's doubly-nested result
`Result<Result<T, ExceptionCode>, Error>`. -/
abbrev MbResult (T : Type) := Except TransportError (Except ProtocolException T)

/-! ## src/digital.rs -/

namespace Digital

/-- `DigitalIOError` from src/digital.rs. -/
inductive DigitalIoError
  | ModbusException (e : ProtocolException)
  | ModbusError (e : TransportError)
  | InvalidControlMode
  deriving DecidableEq, Repr

/-- The `.map_err(DigitalIOError::ModbusError)?.map_err(DigitalIOError::ModbusException)?`
chain every digital facade operation applies to the collaborator's nested
result. -/
def liftResp {T : Type} : MbResult T → Except DigitalIoError T
  | .error e => .error (.ModbusError e)
  | .ok (.error e) => .error (.ModbusException e)
  | .ok (.ok v) => .ok v

/-- `IoBank` from src/digital.rs: one boolean per digital channel. -/
structure IoBank where
  ch0 : Bool
  ch1 : Bool
  ch2 : Bool
  ch3 : Bool
  ch4 : Bool
  ch5 : Bool
  ch6 : Bool
  ch7 : Bool
  deriving DecidableEq, Repr

/-- `impl From<u8> for IoBank` (src/digital.rs lines 50-63): bit i of the
byte becomes channel i. -/
def IoBank.fromU8 (data : Nat) : IoBank where
  ch0 := decide (data &&& 0x01 > 0)
  ch1 := decide (data &&& 0x02 > 0)
  ch2 := decide (data &&& 0x04 > 0)
  ch3 := decide (data &&& 0x08 > 0)
  ch4 := decide (data &&& 0x10 > 0)
  ch5 := decide (data &&& 0x20 > 0)
  ch6 := decide (data &&& 0x40 > 0)
  ch7 := decide (data &&& 0x80 > 0)

/-- `impl Into<u8> for IoBank` (src/digital.rs lines 65-94): or together the
bit of every set channel. -/
def IoBank.toU8 (self : IoBank) : Nat :=
  let out := 0
  let out := if self.ch0 then out ||| 0x01 else out
  let out := if self.ch1 then out ||| 0x02 else out
  let out := if self.ch2 then out ||| 0x04 else out
  let out := if self.ch3 then out ||| 0x08 else out
  let out := if self.ch4 then out ||| 0x10 else out
  let out := if self.ch5 then out ||| 0x20 else out
  let out := if self.ch6 then out ||| 0x40 else out
  let out := if self.ch7 then out ||| 0x80 else out
  out

/-- `OutputRegisterBases` from src/digital.rs. -/
inductive OutputRegisterBases
  | OutputChannel
  | ControlAllRegisters
  | OutputChannelFlashOn
  | OutputChannelFlashOff
  deriving DecidableEq, Repr

/-- Discriminant values of `OutputRegisterBases` (`repr(u16)`). -/
def OutputRegisterBases.toU16 : OutputRegisterBases → Nat
  | .OutputChannel => 0x0000
  | .ControlAllRegisters => 0x00FF
  | .OutputChannelFlashOn => 0x0200
  | .OutputChannelFlashOff => 0x0400

/-- `InputRegisterBases` from src/digital.rs. -/
inductive InputRegisterBases
  | InputChannels
  deriving DecidableEq, Repr

/-- Discriminant values of `InputRegisterBases` (`repr(u16)`). -/
def InputRegisterBases.toU16 : InputRegisterBases → Nat
  | .InputChannels => 0x0000

/-- `HoldingRegisterBases` from src/digital.rs. -/
inductive HoldingRegisterBases
  | ControlMode
  deriving DecidableEq, Repr

/-- Discriminant values of `HoldingRegisterBases` (`repr(u16)`). -/
def HoldingRegisterBases.toU16 : HoldingRegisterBases → Nat
  | .ControlMode => 0x1000

/-- `Action` from src/digital.rs. -/
inductive Action
  | On
  | Off
  deriving DecidableEq, Repr

/-- Discriminant values of `Action` (`repr(u16)`): `On = 0xFF00`,
`Off = 0x0000`. -/
def Action.toU16 : Action → Nat
  | .On => 0xFF00
  | .Off => 0x0000

/-- `ControlMode` from src/digital.rs. -/
inductive ControlMode
  | Command
  | Linked
  | Flip
  deriving DecidableEq, Repr

/-- Discriminant values of the digital `ControlMode` (`repr(u16)`). -/
def ControlMode.toU16 : ControlMode → Nat
  | .Command => 0x0000
  | .Linked => 0x0001
  | .Flip => 0x0002

/-- `DigitalIO` from src/digital.rs: the facade stores its slave id; the
shared context is modelled by passing collaborator responses explicitly. -/
structure DigitalIo where
  unit_id : Nat
  deriving DecidableEq, Repr

/-- `DigitalIO::set_slave_id`: emits the slave-select request for this
facade's unit id. -/
def DigitalIo.set_slave_id (d : DigitalIo) : List Event :=
  [Event.select d.unit_id]

/-- `DigitalIO::write_output_channel` (src/digital.rs lines 143-158). -/
def DigitalIo.write_output_channel (d : DigitalIo) (channel : Channel)
    (action : Action) (resp : MbResult Unit) :
    List Event × Except DigitalIoError Unit :=
  (d.set_slave_id ++
    [Event.writeSingleCoil
      (channel.toU16 + OutputRegisterBases.OutputChannel.toU16)
      (if action == Action.On then true else false)],
   liftResp resp)

/-- `DigitalIO::open_all_outputs` (src/digital.rs lines 160-168). -/
def DigitalIo.open_all_outputs (d : DigitalIo) (resp : MbResult Unit) :
    List Event × Except DigitalIoError Unit :=
  (d.set_slave_id ++
    [Event.writeSingleCoil OutputRegisterBases.ControlAllRegisters.toU16 true],
   liftResp resp)

/-- `DigitalIO::close_all_outputs` (src/digital.rs lines 170-178). -/
def DigitalIo.close_all_outputs (d : DigitalIo) (resp : MbResult Unit) :
    List Event × Except DigitalIoError Unit :=
  (d.set_slave_id ++
    [Event.writeSingleCoil OutputRegisterBases.ControlAllRegisters.toU16 false],
   liftResp resp)

/-- `DigitalIO::write_output_channels` (src/digital.rs lines 180-192): maps
each action to its boolean and issues one multi-coil write at the
`OutputChannel` base.  The Rust argument is `[Action; 8]`, modelled as a
list (of length 8 at every call site). -/
def DigitalIo.write_output_channels (d : DigitalIo) (actions : List Action)
    (resp : MbResult Unit) : List Event × Except DigitalIoError Unit :=
  let values := actions.map (fun x => x == Action.On)
  (d.set_slave_id ++
    [Event.writeMultipleCoils OutputRegisterBases.OutputChannel.toU16 values],
   liftResp resp)

/-- `DigitalIO::flash_output_on` (src/digital.rs lines 194-209). -/
def DigitalIo.flash_output_on (d : DigitalIo) (channel : Channel)
    (interval : Nat) (resp : MbResult Unit) :
    List Event × Except DigitalIoError Unit :=
  (d.set_slave_id ++
    [Event.writeSingleRegister
      (channel.toU16 + OutputRegisterBases.OutputChannelFlashOn.toU16)
      interval],
   liftResp resp)

/-- `DigitalIO::flash_output_off` (src/digital.rs lines 211-226). -/
def DigitalIo.flash_output_off (d : DigitalIo) (channel : Channel)
    (interval : Nat) (resp : MbResult Unit) :
    List Event × Except DigitalIoError Unit :=
  (d.set_slave_id ++
    [Event.writeSingleRegister
      (channel.toU16 + OutputRegisterBases.OutputChannelFlashOff.toU16)
      interval],
   liftResp resp)

/-- `DigitalIO::read_input_channel_status` (src/digital.rs lines 228-241):
on success the code returns `result.first().copied().unwrap_or(false)`. -/
def DigitalIo.read_input_channel_status (d : DigitalIo) (channel : Channel)
    (resp : MbResult (List Bool)) : List Event × Except DigitalIoError Bool :=
  (d.set_slave_id ++
    [Event.readDiscreteInputs
      (channel.toU16 + InputRegisterBases.InputChannels.toU16) 1],
   match liftResp resp with
   | .error e => .error e
   | .ok result => .ok (result.head?.getD false))

/-- `DigitalIO::read_input_channels` (src/digital.rs lines 243-250). -/
def DigitalIo.read_input_channels (d : DigitalIo)
    (resp : MbResult (List Bool)) :
    List Event × Except DigitalIoError (List Bool) :=
  (d.set_slave_id ++
    [Event.readDiscreteInputs InputRegisterBases.InputChannels.toU16 8],
   liftResp resp)

/-- `DigitalIO::set_output_control_mode` (src/digital.rs lines 252-267). -/
def DigitalIo.set_output_control_mode (d : DigitalIo) (channel : Channel)
    (mode : ControlMode) (resp : MbResult Unit) :
    List Event × Except DigitalIoError Unit :=
  (d.set_slave_id ++
    [Event.writeSingleRegister
      (HoldingRegisterBases.ControlMode.toU16 + channel.toU16)
      mode.toU16],
   liftResp resp)

/-- `DigitalIO`'s `set_uart_parameters` (src/digital.rs lines 344-358):
writes `(parity << 8) | baud` to the `UartParameters` register. -/
def DigitalIo.set_uart_parameters (d : DigitalIo) (baud : Baudrates)
    (parity : Parity) (resp : MbResult Unit) :
    List Event × Except DigitalIoError Unit :=
  let value := (parity.toU16 <<< 8) ||| baud.toU16
  (d.set_slave_id ++
    [Event.writeSingleRegister CommonHoldingRegisters.UartParameters.toU16 value],
   liftResp resp)

/-- `DigitalIO`'s `set_device_address` (src/digital.rs lines 360-369). -/
def DigitalIo.set_device_address (d : DigitalIo) (address : Nat)
    (resp : MbResult Unit) : List Event × Except DigitalIoError Unit :=
  (d.set_slave_id ++
    [Event.writeSingleRegister CommonHoldingRegisters.DeviceAddress.toU16 address],
   liftResp resp)

/-- `DigitalIO`'s `read_software_version` (src/digital.rs lines 371-380):
the code returns `Ok(result[0])`; the index panics when the register list is
empty, modelled by `none`. -/
def DigitalIo.read_software_version (d : DigitalIo)
    (resp : MbResult (List Nat)) :
    List Event × Option (Except DigitalIoError Nat) :=
  (d.set_slave_id ++
    [Event.readHoldingRegisters CommonHoldingRegisters.SoftwareVersion.toU16 1],
   match liftResp resp with
   | .error e => some (.error e)
   | .ok result => result.head?.map Except.ok)

end Digital

/-! ## src/analog_in.rs -/

namespace AnalogIn

/-- `AnalogInputError` from src/analog_in.rs. -/
inductive AnalogInputError
  | ModbusException (e : ProtocolException)
  | ModbusError (e : TransportError)
  | InvalidControlMode
  deriving DecidableEq, Repr

/-- The error-mapping chain every analog-input operation applies to the
collaborator's nested result. -/
def liftResp {T : Type} : MbResult T → Except AnalogInputError T
  | .error e => .error (.ModbusError e)
  | .ok (.error e) => .error (.ModbusException e)
  | .ok (.ok v) => .ok v

/-- `InputRegisterBases` from src/analog_in.rs. -/
inductive InputRegisterBases
  | InputChannels
  deriving DecidableEq, Repr

/-- Discriminant values of `InputRegisterBases` (`repr(u16)`). -/
def InputRegisterBases.toU16 : InputRegisterBases → Nat
  | .InputChannels => 0x0000

/-- `HoldingRegisterBases` from src/analog_in.rs. -/
inductive HoldingRegisterBases
  | AnalogMode
  deriving DecidableEq, Repr

/-- Discriminant values of `HoldingRegisterBases` (`repr(u16)`). -/
def HoldingRegisterBases.toU16 : HoldingRegisterBases → Nat
  | .AnalogMode => 0x1000

/-- `ControlMode` from src/analog_in.rs. -/
inductive ControlMode
  | V0V10
  | V2V10
  | C0C20
  | C4C20
  | RAW
  deriving DecidableEq, Repr

/-- Discriminant values of the analog-input `ControlMode` (`repr(u16)`). -/
def ControlMode.toU16 : ControlMode → Nat
  | .V0V10 => 0x0000
  | .V2V10 => 0x0001
  | .C0C20 => 0x0002
  | .C4C20 => 0x0003
  | .RAW => 0x0004

/-- `ControlMode::from_u16` (src/analog_in.rs lines 46-57). -/
def ControlMode.from_u16 (value : Nat) : Except AnalogInputError ControlMode :=
  match value with
  | 0x0000 => .ok .V0V10
  | 0x0001 => .ok .V2V10
  | 0x0002 => .ok .C0C20
  | 0x0003 => .ok .C4C20
  | 0x0004 => .ok .RAW
  | _ => .error .InvalidControlMode

/-- `AnalogInput` from src/analog_in.rs. -/
structure AnalogInput where
  unit_id : Nat
  deriving DecidableEq, Repr

/-- `AnalogInput::set_slave_id`. -/
def AnalogInput.set_slave_id (a : AnalogInput) : List Event :=
  [Event.select a.unit_id]

/-- `AnalogInput::read_input_channel_status` (src/analog_in.rs lines 70-82):
the code returns `Ok(result[0])`; the index panics on an empty register
list, modelled by `none`. -/
def AnalogInput.read_input_channel_status (a : AnalogInput) (channel : Channel)
    (resp : MbResult (List Nat)) :
    List Event × Option (Except AnalogInputError Nat) :=
  (a.set_slave_id ++
    [Event.readInputRegisters
      (channel.toU16 + InputRegisterBases.InputChannels.toU16) 1],
   match liftResp resp with
   | .error e => some (.error e)
   | .ok result => result.head?.map Except.ok)

/-- `AnalogInput::read_input_channels` (src/analog_in.rs lines 84-93): one
read-input-registers transaction of quantity 8 at the `InputChannels` base,
result returned unchanged. -/
def AnalogInput.read_input_channels (a : AnalogInput)
    (resp : MbResult (List Nat)) :
    List Event × Except AnalogInputError (List Nat) :=
  (a.set_slave_id ++
    [Event.readInputRegisters InputRegisterBases.InputChannels.toU16 8],
   liftResp resp)

/-- `AnalogInput::write_control_mode` (src/analog_in.rs lines 95-110). -/
def AnalogInput.write_control_mode (a : AnalogInput)
    (control_mode : ControlMode) (channel : Channel) (resp : MbResult Unit) :
    List Event × Except AnalogInputError Unit :=
  (a.set_slave_id ++
    [Event.writeSingleRegister
      (HoldingRegisterBases.AnalogMode.toU16 + channel.toU16)
      control_mode.toU16],
   liftResp resp)

/-- `AnalogInput::read_control_mode` (src/analog_in.rs lines 112-124): reads
one holding register and decodes it with `ControlMode::from_u16`; the code
indexes `result[0]`, which panics on an empty list, modelled by `none`. -/
def AnalogInput.read_control_mode (a : AnalogInput) (channel : Channel)
    (resp : MbResult (List Nat)) :
    List Event × Option (Except AnalogInputError ControlMode) :=
  (a.set_slave_id ++
    [Event.readHoldingRegisters
      (HoldingRegisterBases.AnalogMode.toU16 + channel.toU16) 1],
   match liftResp resp with
   | .error e => some (.error e)
   | .ok result => result.head?.map ControlMode.from_u16)

/-- `AnalogInput`'s `set_uart_parameters` (src/analog_in.rs lines 130-144). -/
def AnalogInput.set_uart_parameters (a : AnalogInput) (baud : Baudrates)
    (parity : Parity) (resp : MbResult Unit) :
    List Event × Except AnalogInputError Unit :=
  let value := (parity.toU16 <<< 8) ||| baud.toU16
  (a.set_slave_id ++
    [Event.writeSingleRegister CommonHoldingRegisters.UartParameters.toU16 value],
   liftResp resp)

/-- `AnalogInput`'s `set_device_address` (src/analog_in.rs lines 146-155). -/
def AnalogInput.set_device_address (a : AnalogInput) (address : Nat)
    (resp : MbResult Unit) : List Event × Except AnalogInputError Unit :=
  (a.set_slave_id ++
    [Event.writeSingleRegister CommonHoldingRegisters.DeviceAddress.toU16 address],
   liftResp resp)

/-- `AnalogInput`'s `read_software_version` (src/analog_in.rs lines 157-166):
returns `Ok(result[0])`; the index panics on an empty list, modelled by
`none`. -/
def AnalogInput.read_software_version (a : AnalogInput)
    (resp : MbResult (List Nat)) :
    List Event × Option (Except AnalogInputError Nat) :=
  (a.set_slave_id ++
    [Event.readHoldingRegisters CommonHoldingRegisters.SoftwareVersion.toU16 1],
   match liftResp resp with
   | .error e => some (.error e)
   | .ok result => result.head?.map Except.ok)

end AnalogIn

/-! ## src/analog_out.rs -/

namespace AnalogOut

/-- `AnalogOutputError` from src/analog_out.rs. -/
inductive AnalogOutputError
  | ModbusException (e : ProtocolException)
  | ModbusError (e : TransportError)
  | InvalidControlMode
  deriving DecidableEq, Repr

/-- The error-mapping chain every analog-output operation applies to the
collaborator's nested result. -/
def liftResp {T : Type} : MbResult T → Except AnalogOutputError T
  | .error e => .error (.ModbusError e)
  | .ok (.error e) => .error (.ModbusException e)
  | .ok (.ok v) => .ok v

/-- `HoldingRegisterBases` from src/analog_out.rs. -/
inductive HoldingRegisterBases
  | AnalogValue
  deriving DecidableEq, Repr

/-- Discriminant values of `HoldingRegisterBases` (`repr(u16)`). -/
def HoldingRegisterBases.toU16 : HoldingRegisterBases → Nat
  | .AnalogValue => 0x0000

/-- `ControlMode` from src/analog_out.rs. -/
inductive ControlMode
  | V0V10
  | V2V10
  | C0C20
  | C4C20
  | RAW
  deriving DecidableEq, Repr

/-- Discriminant values of the analog-output `ControlMode` (`repr(u16)`). -/
def ControlMode.toU16 : ControlMode → Nat
  | .V0V10 => 0x0000
  | .V2V10 => 0x0001
  | .C0C20 => 0x0002
  | .C4C20 => 0x0003
  | .RAW => 0x0004

/-- `ControlMode::from_u16` (src/analog_out.rs lines 40-51). -/
def ControlMode.from_u16 (value : Nat) : Except AnalogOutputError ControlMode :=
  match value with
  | 0x0000 => .ok .V0V10
  | 0x0001 => .ok .V2V10
  | 0x0002 => .ok .C0C20
  | 0x0003 => .ok .C4C20
  | 0x0004 => .ok .RAW
  | _ => .error .InvalidControlMode

/-- `AnalogOutput` from src/analog_out.rs. -/
structure AnalogOutput where
  unit_id : Nat
  deriving DecidableEq, Repr

/-- `AnalogOutput::set_slave_id`. -/
def AnalogOutput.set_slave_id (a : AnalogOutput) : List Event :=
  [Event.select a.unit_id]

/-- `AnalogOutput::read_output_channel_value` (src/analog_out.rs lines
64-76): returns `Ok(result[0])`; the index panics on an empty list,
modelled by `none`. -/
def AnalogOutput.read_output_channel_value (a : AnalogOutput)
    (channel : Channel) (resp : MbResult (List Nat)) :
    List Event × Option (Except AnalogOutputError Nat) :=
  (a.set_slave_id ++
    [Event.readHoldingRegisters
      (channel.toU16 + HoldingRegisterBases.AnalogValue.toU16) 1],
   match liftResp resp with
   | .error e => some (.error e)
   | .ok result => result.head?.map Except.ok)

/-- `AnalogOutput::write_output_channel_value` (src/analog_out.rs lines
78-93). -/
def AnalogOutput.write_output_channel_value (a : AnalogOutput)
    (channel : Channel) (value : Nat) (resp : MbResult Unit) :
    List Event × Except AnalogOutputError Unit :=
  (a.set_slave_id ++
    [Event.writeSingleRegister
      (channel.toU16 + HoldingRegisterBases.AnalogValue.toU16) value],
   liftResp resp)

/-- `AnalogOutput`'s `set_uart_parameters` (src/analog_out.rs lines
99-113). -/
def AnalogOutput.set_uart_parameters (a : AnalogOutput) (baud : Baudrates)
    (parity : Parity) (resp : MbResult Unit) :
    List Event × Except AnalogOutputError Unit :=
  let value := (parity.toU16 <<< 8) ||| baud.toU16
  (a.set_slave_id ++
    [Event.writeSingleRegister CommonHoldingRegisters.UartParameters.toU16 value],
   liftResp resp)

/-- `AnalogOutput`'s `set_device_address` (src/analog_out.rs lines
115-124). -/
def AnalogOutput.set_device_address (a : AnalogOutput) (address : Nat)
    (resp : MbResult Unit) : List Event × Except AnalogOutputError Unit :=
  (a.set_slave_id ++
    [Event.writeSingleRegister CommonHoldingRegisters.DeviceAddress.toU16 address],
   liftResp resp)

/-- `AnalogOutput`'s `read_software_version` (src/analog_out.rs lines
126-135): returns `Ok(result[0])`; the index panics on an empty list,
modelled by `none`. -/
def AnalogOutput.read_software_version (a : AnalogOutput)
    (resp : MbResult (List Nat)) :
    List Event × Option (Except AnalogOutputError Nat) :=
  (a.set_slave_id ++
    [Event.readHoldingRegisters CommonHoldingRegisters.SoftwareVersion.toU16 1],
   match liftResp resp with
   | .error e => some (.error e)
   | .ok result => result.head?.map Except.ok)

end AnalogOut

/-! ## Concurrency model of `ThreadSafeContext` (src/lib.rs)

`ThreadSafeContext` wraps the tokio-modbus `Context` in `Arc<Mutex<_>>`.
Every public method — `set_slave` (lines 30-33) and each transaction method
(`call`, `read_*`, `write_*`, lines 35-113) — acquires the mutex for the
duration of its own body only and releases it on return.  A facade
operation therefore performs two separately-locked atomic steps on the
link: first `set_slave_id().await` (one lock acquisition), then the Modbus
transaction (a second, independent acquisition).  Between the two, any
other caller may acquire the mutex.

The model: each caller is a list of atomic link operations (`LinkOp`); an
execution is a schedule, a list of caller indices; the step picked by the
schedule runs one caller's next atomic operation against the shared state
(the `Context`'s currently selected slave) and appends the corresponding
link event.  This is exactly the set of traces the mutex admits: atomic
steps are totally ordered, each caller's program order is preserved, and
steps of different callers interleave arbitrarily. -/

/-- One atomic (single-lock-acquisition) operation on the shared link. -/
inductive LinkOp
  | setSlave (slave : Nat)
  | transact
  deriving DecidableEq, Repr

/-- One observed event on the simulated link: a slave-select or a
transaction, tagged with the logical caller that performed it.  A
transaction is tagged with the slave the `Context` had selected when the
request went out — that is the slave the request is addressed to on the
wire. -/
inductive LinkEvent
  | selected (caller slave : Nat)
  | transacted (caller slave : Nat)
  deriving DecidableEq, Repr

/-- Run one atomic step of caller `i` against the selected-slave state,
returning the emitted event (if the caller still has work) and the new
state. -/
def linkStep (slave : Nat) (i : Nat) (progs : List (List LinkOp)) :
    Option LinkEvent × Nat × List (List LinkOp) :=
  match progs.getD i [] with
  | [] => (none, slave, progs)
  | op :: rest =>
    let progs := progs.set i rest
    match op with
    | .setSlave s => (some (.selected i s), s, progs)
    | .transact => (some (.transacted i slave), slave, progs)

/-- Run a whole schedule: at each step the schedule names the caller whose
next atomic link operation runs under the mutex. -/
def runSched (sched : List Nat) (slave : Nat) (progs : List (List LinkOp)) :
    List LinkEvent :=
  match sched with
  | [] => []
  | i :: sched =>
    match linkStep slave i progs with
    | (none, slave, progs) => runSched sched slave progs
    | (some e, slave, progs) => e :: runSched sched slave progs

/-- The program a Device Facade operation runs on the shared link: select
this facade's slave address, then perform its one Modbus transaction
(src/digital.rs lines 143-158 and every other facade operation). -/
def facadeProg (slave : Nat) : List LinkOp :=
  [LinkOp.setSlave slave, LinkOp.transact]

/-- The property claimed of link traces: every slave-select by a caller is
immediately followed by that same caller's transaction. -/
def selectFollowedBySameCaller : List LinkEvent → Bool
  | [] => true
  | .selected c _ :: rest =>
    match rest with
    | .transacted c2 _ :: _ => c2 == c && selectFollowedBySameCaller rest
    | _ => false
  | .transacted _ _ :: rest => selectFollowedBySameCaller rest

/-! ## Definitions modelled from the spec (no source counterpart) -/

/-- Modelled from the spec: the repository contains no UART-parameter
decoder; spec section 4.2 defines the packing as `(parity << 8) | baud_code`
with parity in the high byte and the baud code in the low byte, so the
decoder reads the high byte as a parity code and the low byte as a baud
code, failing on unknown codes. -/
def Parity.fromU16 (value : Nat) : Option Parity :=
  match value with
  | 0x00 => some .None
  | 0x01 => some .Even
  | 0x02 => some .Odd
  | _ => none

/-- Modelled from the spec: baud-code lookup for the UART-parameter decoder
(spec section 4.2); the codes are the `Baudrates` discriminants. -/
def Baudrates.fromU16 (value : Nat) : Option Baudrates :=
  match value with
  | 0x00 => some .B4800
  | 0x01 => some .B9600
  | 0x02 => some .B19200
  | 0x03 => some .B38400
  | 0x04 => some .B57600
  | 0x05 => some .B115200
  | 0x06 => some .B128000
  | 0x07 => some .B256000
  | _ => none

/-- Modelled from the spec: the UART-parameter word decoder — parity from
the high byte, baud from the low byte (spec sections 4.2 and 6). -/
def decodeUartWord (w : Nat) : Option (Parity × Baudrates) :=
  match Parity.fromU16 (w >>> 8), Baudrates.fromU16 (w &&& 0xFF) with
  | some p, some b => some (p, b)
  | _, _ => none

/-- Modelled from the spec: the external Modbus client encodes a
single-coil write value on the wire as 0xFF00 for `true` and 0x0000 for
`false` (spec sections 4.2 and 6, the Modbus coil convention); the
repository hands the collaborator a `Bool`. -/
def coilWireValue (b : Bool) : Nat :=
  if b then 0xFF00 else 0x0000

/-! ## Theorems for the claims -/

set_option maxRecDepth 4096

/-- C3: for every byte value b in 0-255, decoding b into an `IoBank` (bit i
of b becomes channel i's boolean) and then re-encoding the bank to a byte
yields exactly b. -/
theorem claim_C3 : ∀ b : Fin 256, (Digital.IoBank.fromU8 b.val).toU8 = b.val := by
  decide

/-- C4: for every analog `ControlMode` variant (codes 0x0000-0x0004),
`from_u16` of its code returns `Ok` of that same variant; for every u16
value outside 0x0000-0x0004, `from_u16` returns the `InvalidControlMode`
error and never a default mode — for both the analog-input and the
analog-output decoder. -/
theorem claim_C4 :
    (∀ m : AnalogIn.ControlMode,
      AnalogIn.ControlMode.from_u16 m.toU16 = .ok m) ∧
    (∀ v : Nat, 4 < v → v < 65536 →
      AnalogIn.ControlMode.from_u16 v = .error .InvalidControlMode) ∧
    (∀ m : AnalogOut.ControlMode,
      AnalogOut.ControlMode.from_u16 m.toU16 = .ok m) ∧
    (∀ v : Nat, 4 < v → v < 65536 →
      AnalogOut.ControlMode.from_u16 v = .error .InvalidControlMode) := by
  refine ⟨fun m => by cases m <;> rfl, fun v h1 h2 => ?_,
    fun m => by cases m <;> rfl, fun v h1 h2 => ?_⟩
  · obtain ⟨n, rfl⟩ : ∃ n, v = n + 5 := ⟨v - 5, by omega⟩
    rfl
  · obtain ⟨n, rfl⟩ : ∃ n, v = n + 5 := ⟨v - 5, by omega⟩
    rfl

/-- Witness for C4 at the concrete undefined code 0x0005 and the concrete
variant `RAW`. -/
theorem claim_C4_witness :
    AnalogIn.ControlMode.from_u16 5 = .error .InvalidControlMode ∧
    AnalogOut.ControlMode.from_u16 5 = .error .InvalidControlMode ∧
    AnalogIn.ControlMode.from_u16 AnalogIn.ControlMode.RAW.toU16 = .ok .RAW :=
  ⟨claim_C4.2.1 5 (by decide) (by decide),
   claim_C4.2.2.2 5 (by decide) (by decide),
   claim_C4.1 .RAW⟩

/-- C9: the digital `Action` encoder produces `On` as 0xFF00 and `Off` as
0x0000 exactly and nothing else; the coil boolean a single-coil write
derives from an `Action` is true iff the action is `On`, so its wire
encoding under the Modbus coil convention is exactly the action's code. -/
theorem claim_C9 :
    Digital.Action.toU16 .On = 0xFF00 ∧
    Digital.Action.toU16 .Off = 0x0000 ∧
    (∀ a : Digital.Action, a.toU16 = 0xFF00 ∨ a.toU16 = 0x0000) ∧
    (∀ a : Digital.Action,
      coilWireValue (if a == Digital.Action.On then true else false) = a.toU16) ∧
    (∀ (d : Digital.DigitalIo) (ch : Channel) (a : Digital.Action)
        (resp : MbResult Unit),
      (d.write_output_channel ch a resp).1 =
        [Event.select d.unit_id,
         Event.writeSingleCoil
           (ch.toU16 + Digital.OutputRegisterBases.OutputChannel.toU16)
           (a == Digital.Action.On)]) := by
  refine ⟨rfl, rfl, fun a => ?_, fun a => ?_, fun d ch a resp => ?_⟩
  · cases a
    · exact Or.inl rfl
    · exact Or.inr rfl
  · cases a <;> rfl
  · cases a <;> rfl

/-- C10: on a successful collaborator response carrying an empty register
list, each operation that reads a single register — `read_software_version`
in all three classes, `AnalogInput::read_input_channel_status` and
`AnalogOutput::read_output_channel_value` — indexes `result[0]` and panics
(modelled by `none`) instead of returning an error value. -/
theorem claim_C10 :
    (∀ d : Digital.DigitalIo,
      (d.read_software_version (.ok (.ok []))).2 = none) ∧
    (∀ a : AnalogIn.AnalogInput,
      (a.read_software_version (.ok (.ok []))).2 = none) ∧
    (∀ a : AnalogOut.AnalogOutput,
      (a.read_software_version (.ok (.ok []))).2 = none) ∧
    (∀ (a : AnalogIn.AnalogInput) (ch : Channel),
      (a.read_input_channel_status ch (.ok (.ok []))).2 = none) ∧
    (∀ (a : AnalogOut.AnalogOutput) (ch : Channel),
      (a.read_output_channel_value ch (.ok (.ok []))).2 = none) :=
  ⟨fun _ => rfl, fun _ => rfl, fun _ => rfl, fun _ _ => rfl, fun _ _ => rfl⟩

/-- C2, evaluation at the failing input: when the collaborator returns a
successful response with an empty list, `DigitalIO::read_input_channel_status`
returns `Ok(false)` — a fabricated channel value that was not present in
the response — instead of signaling a failure. -/
theorem claim_C2_eval :
    (Digital.DigitalIo.read_input_channel_status ⟨1⟩ .Channel0
      (.ok (.ok []))).2 = .ok false := rfl

/-- C1, evaluation at the failing schedule: two callers (ids 0 and 1) with
slave addresses 1 and 2 each run a facade operation (select then transact)
on one `ThreadSafeContext`; under the schedule that runs caller 0's select,
caller 1's select, then both transactions, the link trace interleaves
caller 1's select between caller 0's select and transaction — and caller
0's transaction goes out addressed to slave 2, not the slave 1 it selected.
The claimed property is false on this trace. -/
theorem claim_C1_eval :
    runSched [0, 1, 0, 1] 0 [facadeProg 1, facadeProg 2] =
      [.selected 0 1, .selected 1 2, .transacted 0 2, .transacted 1 2] ∧
    selectFollowedBySameCaller
      (runSched [0, 1, 0, 1] 0 [facadeProg 1, facadeProg 2]) = false :=
  ⟨rfl, rfl⟩

/-- C5: `write_output_channels` on the action array
`[On, Off, On, Off, On, Off, On, Off]` issues exactly one multi-coil write
transaction, at address `OutputChannel` (0x0000), covering 8 coils with
values `[true, false, true, false, true, false, true, false]` — not 8
single-coil writes; each action maps to true iff it is `On`. -/
theorem claim_C5 :
    ∀ (d : Digital.DigitalIo) (resp : MbResult Unit),
      (d.write_output_channels
        [.On, .Off, .On, .Off, .On, .Off, .On, .Off] resp).1 =
        [Event.select d.unit_id,
         Event.writeMultipleCoils 0x0000
           [true, false, true, false, true, false, true, false]] ∧
      ((d.write_output_channels
        [.On, .Off, .On, .Off, .On, .Off, .On, .Off] resp).1.filter
          Event.isTransaction) =
        [Event.writeMultipleCoils 0x0000
           [true, false, true, false, true, false, true, false]] :=
  fun _ _ => ⟨rfl, rfl⟩

/-- C6: `AnalogInput::read_input_channels` issues exactly one
read-input-registers transaction at the `InputChannels` base (0x0000) with
quantity 8, and on a successful response returns the raw register codes
unchanged, in order. -/
theorem claim_C6 :
    ∀ (a : AnalogIn.AnalogInput) (regs : List Nat) (resp : MbResult (List Nat)),
      (a.read_input_channels resp).1 =
        [Event.select a.unit_id, Event.readInputRegisters 0x0000 8] ∧
      ((a.read_input_channels resp).1.filter Event.isTransaction) =
        [Event.readInputRegisters 0x0000 8] ∧
      (a.read_input_channels (.ok (.ok regs))).2 = .ok regs :=
  fun _ _ _ => ⟨rfl, rfl, rfl⟩

/-- C7: for every channel and every per-channel operation of the three
device classes, the effective register or coil address in the emitted
transaction is base + channel index; `Channel::try_from` accepts exactly
the u8 values 0-7 (mapping value v to the channel whose code is v) and
rejects every other u8 value with an error before any address is formed. -/
theorem claim_C7 :
    (∀ ch : Channel, Channel.tryFrom ch.toU16 = .ok ch) ∧
    (∀ v : Nat, 8 ≤ v → v < 256 →
      Channel.tryFrom v = .error "Invalid Channel") ∧
    (∀ (d : Digital.DigitalIo) (ch : Channel) (a : Digital.Action)
        (resp : MbResult Unit),
      (d.write_output_channel ch a resp).1 =
        [Event.select d.unit_id,
         Event.writeSingleCoil
           (Digital.OutputRegisterBases.OutputChannel.toU16 + ch.toU16)
           (a == Digital.Action.On)]) ∧
    (∀ (d : Digital.DigitalIo) (ch : Channel) (interval : Nat)
        (resp : MbResult Unit),
      (d.flash_output_on ch interval resp).1 =
        [Event.select d.unit_id,
         Event.writeSingleRegister
           (Digital.OutputRegisterBases.OutputChannelFlashOn.toU16 + ch.toU16)
           interval]) ∧
    (∀ (d : Digital.DigitalIo) (ch : Channel) (interval : Nat)
        (resp : MbResult Unit),
      (d.flash_output_off ch interval resp).1 =
        [Event.select d.unit_id,
         Event.writeSingleRegister
           (Digital.OutputRegisterBases.OutputChannelFlashOff.toU16 + ch.toU16)
           interval]) ∧
    (∀ (d : Digital.DigitalIo) (ch : Channel) (resp : MbResult (List Bool)),
      (d.read_input_channel_status ch resp).1 =
        [Event.select d.unit_id,
         Event.readDiscreteInputs
           (Digital.InputRegisterBases.InputChannels.toU16 + ch.toU16) 1]) ∧
    (∀ (d : Digital.DigitalIo) (ch : Channel) (m : Digital.ControlMode)
        (resp : MbResult Unit),
      (d.set_output_control_mode ch m resp).1 =
        [Event.select d.unit_id,
         Event.writeSingleRegister
           (Digital.HoldingRegisterBases.ControlMode.toU16 + ch.toU16)
           m.toU16]) ∧
    (∀ (a : AnalogIn.AnalogInput) (ch : Channel) (resp : MbResult (List Nat)),
      (a.read_input_channel_status ch resp).1 =
        [Event.select a.unit_id,
         Event.readInputRegisters
           (AnalogIn.InputRegisterBases.InputChannels.toU16 + ch.toU16) 1]) ∧
    (∀ (a : AnalogIn.AnalogInput) (ch : Channel) (m : AnalogIn.ControlMode)
        (resp : MbResult Unit),
      (a.write_control_mode m ch resp).1 =
        [Event.select a.unit_id,
         Event.writeSingleRegister
           (AnalogIn.HoldingRegisterBases.AnalogMode.toU16 + ch.toU16)
           m.toU16]) ∧
    (∀ (a : AnalogIn.AnalogInput) (ch : Channel) (resp : MbResult (List Nat)),
      (a.read_control_mode ch resp).1 =
        [Event.select a.unit_id,
         Event.readHoldingRegisters
           (AnalogIn.HoldingRegisterBases.AnalogMode.toU16 + ch.toU16) 1]) ∧
    (∀ (a : AnalogOut.AnalogOutput) (ch : Channel) (resp : MbResult (List Nat)),
      (a.read_output_channel_value ch resp).1 =
        [Event.select a.unit_id,
         Event.readHoldingRegisters
           (AnalogOut.HoldingRegisterBases.AnalogValue.toU16 + ch.toU16) 1]) ∧
    (∀ (a : AnalogOut.AnalogOutput) (ch : Channel) (value : Nat)
        (resp : MbResult Unit),
      (a.write_output_channel_value ch value resp).1 =
        [Event.select a.unit_id,
         Event.writeSingleRegister
           (AnalogOut.HoldingRegisterBases.AnalogValue.toU16 + ch.toU16)
           value]) := by
  refine ⟨fun ch => by cases ch <;> rfl, fun v h1 h2 => ?_,
    fun d ch a resp => by cases ch <;> cases a <;> rfl,
    fun d ch interval resp => by cases ch <;> rfl,
    fun d ch interval resp => by cases ch <;> rfl,
    fun d ch resp => by cases ch <;> rfl,
    fun d ch m resp => by cases ch <;> rfl,
    fun a ch resp => by cases ch <;> rfl,
    fun a ch m resp => by cases ch <;> rfl,
    fun a ch resp => by cases ch <;> rfl,
    fun a ch resp => by cases ch <;> rfl,
    fun a ch value resp => by cases ch <;> rfl⟩
  obtain ⟨n, rfl⟩ : ∃ n, v = n + 8 := ⟨v - 8, by omega⟩
  rfl

/-- Witness for C7 at the concrete rejected index 8 and the concrete
accepted index 3. -/
theorem claim_C7_witness :
    Channel.tryFrom 8 = .error "Invalid Channel" ∧
    Channel.tryFrom (Channel.toU16 .Channel3) = .ok .Channel3 :=
  ⟨claim_C7.2.1 8 (by decide) (by decide), claim_C7.1 .Channel3⟩

/-- C8: for every parity and baud enumeration value, `set_uart_parameters`
in each of the three device classes writes the single word
`(parity << 8) | baud` to the `UartParameters` register 0x2000 — the same
encoding in all three classes — and decoding that word recovers the
original parity and baud exactly. -/
theorem claim_C8 :
    ∀ (baud : Baudrates) (parity : Parity),
      (∀ (d : Digital.DigitalIo) (resp : MbResult Unit),
        (d.set_uart_parameters baud parity resp).1 =
          [Event.select d.unit_id,
           Event.writeSingleRegister 0x2000
             ((parity.toU16 <<< 8) ||| baud.toU16)]) ∧
      (∀ (a : AnalogIn.AnalogInput) (resp : MbResult Unit),
        (a.set_uart_parameters baud parity resp).1 =
          [Event.select a.unit_id,
           Event.writeSingleRegister 0x2000
             ((parity.toU16 <<< 8) ||| baud.toU16)]) ∧
      (∀ (a : AnalogOut.AnalogOutput) (resp : MbResult Unit),
        (a.set_uart_parameters baud parity resp).1 =
          [Event.select a.unit_id,
           Event.writeSingleRegister 0x2000
             ((parity.toU16 <<< 8) ||| baud.toU16)]) ∧
      decodeUartWord ((parity.toU16 <<< 8) ||| baud.toU16) =
        some (parity, baud) := by
  intro baud parity
  refine ⟨fun d resp => rfl, fun a resp => rfl, fun a resp => rfl, ?_⟩
  cases baud <;> cases parity <;> rfl

end Waveshare
